import Mathlib

/-!
Verification development for the `money` transaction import tool.

The definitions below are a shallow embedding of the Rust sources:

* `src/src-tauri/src/loader/categorizer.rs` - the rule-based categorizer
  (build phase and the pure `categorize` classification);
* `src/src-tauri/src/loader/mod.rs` - the import pipeline's multiline skip
  and the post-phase date fill;
* `src/src/importer/mod.rs` - the `TransactionImporter::import` step;
* `src/src/importer/csv_file.rs` - the CSV row to `Transaction` adapter;
* `src/src/importer/qfx_file/lexer.rs` - the byte level OFX tokenizer with
  its close tag elision rule;
* `src/src/importer/qfx_file/mod.rs` - the OFX document state machine
  (`DocumentParser::next_statement_transaction`) and the
  `QfxReader::load` conversion to `Transaction`.

Rust `HashMap` and the patricia trie are modelled as association lists
(`lookupA`, `setA`, `longestPfxOf`); only membership and lookup results are
relied upon, which the hash map guarantees as well.  `rust_decimal::Decimal`
amounts are modelled as `Rat`; machine integers that the claims touch stay
within `Nat`.  Strings decoded from the file are Lean `String`s.
-/

deriving instance DecidableEq for Except

/-! ## Association list helpers (model of `HashMap` and `PatriciaMap`) -/

/-- Rust `str::starts_with` / prefix test, on the character sequence (for
valid UTF-8 the byte level test Rust performs agrees with the character
level one). -/
def strIsPrefixOf (p s : String) : Bool :=
  p.data.isPrefixOf s.data

/-- Lookup in an association list; models `HashMap::get`. -/
def lookupA {α β : Type} [DecidableEq α] : List (α × β) → α → Option β
  | [], _ => none
  | (k2, v) :: rest, k => if k2 = k then some v else lookupA rest k

/-- Insert or replace a binding; models writing back through
`HashMap::entry(k).or_default()`. -/
def setA {α β : Type} [DecidableEq α] : List (α × β) → α → β → List (α × β)
  | [], k, v => [(k, v)]
  | (k2, v2) :: rest, k, v =>
    if k2 = k then (k, v) :: rest else (k2, v2) :: setA rest k v

/-- Insert into a set represented as a duplicate free list; models
`HashSet::insert`. -/
def insertSet {α : Type} [DecidableEq α] (s : List α) (x : α) : List α :=
  if x ∈ s then s else x :: s

/-! ## Configuration and categorizer data model
(`src/src-tauri/src/loader/categorizer.rs`, config types from
`src/src/config.rs`; the tauri tree's config module only differs in using a
plain `bool` for `income`, which is how the categorizer consumes it). -/

/-- `TransactionType` from `src/src/importer/mod.rs` (also
`db::TransactionType` in the tauri tree): the OFX reported source type. -/
inductive TransactionType : Type
  | debit
  | credit
  | pos
  | atm
  | fee
  | other
deriving DecidableEq, Repr

/-- `UserTransactionType` from `src/src/config.rs`. -/
inductive UserTransactionType : Type
  | debitPurchase
  | debitRefund
  | creditPurchase
  | creditRefund
  | visaDebitPurchase
  | visaDebitRefund
  | sentEtransfer
  | receivedEtransfer
  | cancelledEtransfer
  | interAccountTransfer
  | sentDirectDeposit
  | receivedDirectDeposit
  | atmWithdrawal
  | atmDeposit
  | interest
  | bankFee
  | chequeDeposit
deriving DecidableEq, Repr

/-- `NameSource` from `src/src/config.rs`. -/
inductive NameSource : Type
  | memo
  | name
  | nameSuffix
deriving DecidableEq, Repr

/-- `TransactionTypeMode` from `src/src/config.rs`. -/
inductive TransactionTypeMode : Type
  | prefixMode
  | sourceTypeMode
deriving DecidableEq, Repr

/-- `TransactionTypeConfig`; the `prefix` field is called `prefixStr`
because Lean reserves the word. -/
structure TransactionTypeConfig : Type where
  mode : TransactionTypeMode
  prefixStr : Option String
  sourceType : Option TransactionType
  transactionType : UserTransactionType
  income : Bool
  nameSource : NameSource
  accounts : List String
deriving DecidableEq, Repr

/-- `TransactionRuleConfig` from `src/src/config.rs`. -/
structure TransactionRuleConfig : Type where
  transactionType : UserTransactionType
  category : String
  ignore : Bool
  patterns : List String
deriving DecidableEq, Repr

/-- `PatternCategory` from `categorizer.rs`. -/
structure PatternCategory : Type where
  category : String
  ignore : Bool
deriving DecidableEq, Repr

/-- `TransactionDecoder` from `categorizer.rs`; `categories` models the
`HashMap<String, PatternCategory>` of display names. -/
structure TransactionDecoder : Type where
  transactionType : UserTransactionType
  nameSource : NameSource
  income : Bool
  categories : List (String × PatternCategory)
deriving DecidableEq, Repr

/-- `CategoryRuleError` from `src/src-tauri/src/error.rs`. -/
inductive CategoryRuleError : Type
  | duplicateRule (pattern existing new : String)
  | missingPrefix
  | duplicatePrefix (p : String)
  | missingSourceType
  | duplicateSourceType (t : TransactionType)
deriving DecidableEq, Repr

/-- `CategorizationError` from `src/src-tauri/src/error.rs`. -/
inductive CategorizationError : Type
  | matchedTypeAndPrefix (account prefixStr : String)
      (transactionType : TransactionType) (name : String)
  | missingMemo
  | nameSuffixInSourceType
  | prefixNotContained
deriving DecidableEq, Repr

/-- `UncategorizedTransaction` from
`src/src-tauri/src/db/schema/uncategorized_transactions.rs`. -/
inductive UncategorizedTransaction : Type
  | missingType (account : String) (sourceType : TransactionType) (name : String)
  | missingRule (account : String) (transactionType : UserTransactionType)
      (display : String)
deriving DecidableEq, Repr

/-- `Categorization` from `categorizer.rs`. -/
structure Categorization : Type where
  income : Bool
  ignore : Bool
  category : String
deriving DecidableEq, Repr

/-- `CategorizationStatus` from `categorizer.rs`. -/
inductive CategorizationStatus : Type
  | categorized (c : Categorization)
  | uncategorized (u : UncategorizedTransaction)
deriving DecidableEq, Repr

/-- `Categorizer` from `categorizer.rs`: per account prefix tries and source
type maps, plus the used categories set. -/
structure Categorizer : Type where
  prefixMap : List (String × List (String × TransactionDecoder))
  sourceTypeMap : List (String × List (TransactionType × TransactionDecoder))
  categories : List (String × Bool)
deriving DecidableEq, Repr

/-! ## Categorizer build phase (`Categorizer::build`) -/

/-- Inner loop of the rule bucketing: insert every pattern of one rule into
the bucket for its user type, rejecting duplicates
(`categorizer.rs` lines 59-79). -/
def addRulePatterns (cat : String) (ign : Bool) :
    List String → List (String × PatternCategory) →
    Except CategoryRuleError (List (String × PatternCategory))
  | [], bucket => .ok bucket
  | p :: rest, bucket =>
    match lookupA bucket p with
    | some e => .error (.duplicateRule p e.category cat)
    | none => addRulePatterns cat ign rest (bucket ++ [(p, ⟨cat, ign⟩)])

/-- First phase of `Categorizer::build`: bucket the rules by user
transaction type. -/
def bucketRules :
    List TransactionRuleConfig →
    List (UserTransactionType × List (String × PatternCategory)) →
    Except CategoryRuleError
      (List (UserTransactionType × List (String × PatternCategory)))
  | [], acc => .ok acc
  | r :: rest, acc =>
    match addRulePatterns r.category r.ignore r.patterns
        ((lookupA acc r.transactionType).getD []) with
    | .error e => .error e
    | .ok bucket2 => bucketRules rest (setA acc r.transactionType bucket2)

/-- Record the non ignored categories of one decoder's pattern map in the
used categories set (`categorizer.rs` lines 90-94). -/
def addUsedCategories (income : Bool) :
    List (String × PatternCategory) → List (String × Bool) → List (String × Bool)
  | [], used => used
  | (_, pc) :: rest, used =>
    addUsedCategories income rest
      (if pc.ignore then used else insertSet used (pc.category, income))

/-- Insert one decoder under a prefix for each listed account
(`categorizer.rs` lines 107-117). -/
def insertPrefixAccounts (p : String) (dec : TransactionDecoder) :
    List String → List (String × List (String × TransactionDecoder)) →
    Except CategoryRuleError (List (String × List (String × TransactionDecoder)))
  | [], pm => .ok pm
  | a :: rest, pm =>
    let aps := (lookupA pm a).getD []
    if (lookupA aps p).isSome then .error (.duplicatePrefix p)
    else insertPrefixAccounts p dec rest (setA pm a (aps ++ [(p, dec)]))

/-- Insert one decoder under a source type for each listed account
(`categorizer.rs` lines 124-131). -/
def insertSourceTypeAccounts (st : TransactionType) (dec : TransactionDecoder) :
    List String → List (String × List (TransactionType × TransactionDecoder)) →
    Except CategoryRuleError
      (List (String × List (TransactionType × TransactionDecoder)))
  | [], stm => .ok stm
  | a :: rest, stm =>
    let ats := (lookupA stm a).getD []
    if (lookupA ats st).isSome then .error (.duplicateSourceType st)
    else insertSourceTypeAccounts st dec rest (setA stm a (ats ++ [(st, dec)]))

/-- Second phase of `Categorizer::build`: walk the transaction type configs,
building decoders and the used categories set. -/
def buildTypes
    (buckets : List (UserTransactionType × List (String × PatternCategory))) :
    List TransactionTypeConfig →
    List (String × List (String × TransactionDecoder)) →
    List (String × List (TransactionType × TransactionDecoder)) →
    List (String × Bool) →
    Except CategoryRuleError Categorizer
  | [], pm, stm, used => .ok ⟨pm, stm, used⟩
  | tc :: rest, pm, stm, used =>
    let cats := (lookupA buckets tc.transactionType).getD []
    let used2 := addUsedCategories tc.income cats used
    let dec : TransactionDecoder :=
      ⟨tc.transactionType, tc.nameSource, tc.income, cats⟩
    match tc.mode with
    | .prefixMode =>
      match tc.prefixStr with
      | none => .error .missingPrefix
      | some p =>
        match insertPrefixAccounts p dec tc.accounts pm with
        | .error e => .error e
        | .ok pm2 => buildTypes buckets rest pm2 stm used2
    | .sourceTypeMode =>
      match tc.sourceType with
      | none => .error .missingSourceType
      | some st =>
        match insertSourceTypeAccounts st dec tc.accounts stm with
        | .error e => .error e
        | .ok stm2 => buildTypes buckets rest pm stm2 used2

/-- `Categorizer::build` (`categorizer.rs` lines 53-141). -/
def Categorizer.build (transactionTypes : List TransactionTypeConfig)
    (rules : List TransactionRuleConfig) : Except CategoryRuleError Categorizer :=
  match bucketRules rules [] with
  | .error e => .error e
  | .ok buckets => buildTypes buckets transactionTypes [] [] []

/-! ## Classification (`Categorizer::categorize`) -/

/-- Longest prefix lookup, the semantics of
`GenericPatriciaMap::get_longest_common_prefix`: among the stored keys that
are a prefix of `nm`, return the longest one with its value. -/
def longestPfxOf :
    List (String × TransactionDecoder) → String →
    Option (String × TransactionDecoder)
  | [], _ => none
  | (k, v) :: rest, nm =>
    match longestPfxOf rest nm with
    | none => if strIsPrefixOf k nm then some (k, v) else none
    | some (bk, bv) =>
      if strIsPrefixOf k nm && bk.length < k.length then some (k, v)
      else some (bk, bv)

/-- Model of Rust `str::strip_prefix`: the suffix after the prefix, when
the prefix is present. -/
def dropPre (p s : String) : Option String :=
  if strIsPrefixOf p s then some (String.mk (s.data.drop p.data.length))
  else none

/-- The prefix side of decoder resolution
(`categorizer.rs` lines 154-157). -/
def prefixLookup (c : Categorizer) (account nm : String) :
    Option (String × TransactionDecoder) :=
  (lookupA c.prefixMap account).bind (fun ps => longestPfxOf ps nm)

/-- The source type side of decoder resolution
(`categorizer.rs` lines 159-162). -/
def typeLookup (c : Categorizer) (account : String) (t : TransactionType) :
    Option TransactionDecoder :=
  (lookupA c.sourceTypeMap account).bind (fun ts => lookupA ts t)

/-- Display name computation (`categorizer.rs` lines 190-196): raw name,
memo, or the name with the matched prefix stripped. -/
def displayNameOf (ns : NameSource) (matchedPfx : Option String)
    (nm : String) (memo : Option String) : Except CategorizationError String :=
  match ns with
  | .memo =>
    match memo with
    | some m => .ok m
    | none => .error .missingMemo
  | .name => .ok nm
  | .nameSuffix =>
    match matchedPfx with
    | none => .error .nameSuffixInSourceType
    | some p =>
      match dropPre p nm with
      | some rest => .ok rest
      | none => .error .prefixNotContained

/-- Final rule lookup and result assembly
(`categorizer.rs` lines 197-213). -/
def finishCategorize (account : String) (d : TransactionDecoder)
    (display : String) : CategorizationStatus :=
  match lookupA d.categories display with
  | none => .uncategorized (.missingRule account d.transactionType display)
  | some pc => .categorized ⟨d.income, pc.ignore, pc.category⟩

/-- `Categorizer::categorize` (`categorizer.rs` lines 147-214).  The odd
spelling `transactionTye` mirrors the parameter name in the source. -/
def Categorizer.categorize (c : Categorizer) (account nm : String)
    (transactionTye : TransactionType) (memo : Option String) :
    Except CategorizationError CategorizationStatus :=
  match prefixLookup c account nm, typeLookup c account transactionTye with
  | some (p, _), some _ =>
    .error (.matchedTypeAndPrefix account p transactionTye nm)
  | some (p, d), none =>
    (match displayNameOf d.nameSource (some p) nm memo with
     | .error e => .error e
     | .ok dn => .ok (finishCategorize account d dn.trim))
  | none, some d =>
    (match displayNameOf d.nameSource none nm memo with
     | .error e => .error e
     | .ok dn => .ok (finishCategorize account d dn.trim))
  | none, none =>
    .ok (.uncategorized (.missingType account transactionTye nm))

/-! ## Shared `Transaction` record and the import pipeline step
(`src/src/importer/mod.rs`).  Dates carry no time of day and are modelled as
day numbers (`Int`); `Decimal` amounts are modelled as `Rat`. -/

/-- `Transaction` from `src/src/importer/mod.rs` lines 46-55. -/
structure Transaction : Type where
  transactionType : TransactionType
  datePosted : Int
  amount : Rat
  transactionId : Option String
  category : Option String
  name : String
  memo : Option String
deriving DecidableEq, Repr

/-- Rust `tid.contains(".")` for the single character pattern. -/
def strContainsDot (s : String) : Bool :=
  s.data.any (fun ch => ch = '.')

/-- The multiline continuation test of `TransactionImporter::import`
(`src/src/importer/mod.rs` lines 113-115; the tauri pipeline repeats it at
`loader/mod.rs` lines 121-124): a present transaction id containing a dot
together with a zero amount. -/
def shouldSkipMultiline (t : Transaction) : Bool :=
  match t.transactionId with
  | some tid => strContainsDot tid && decide (t.amount = 0)
  | none => false

/-- One store write performed by the import step. -/
inductive DbWrite : Type
  | addUncategorizedTransaction (u : UncategorizedTransaction)
  | addTransaction (account : String) (c : Categorization) (t : Transaction)
deriving DecidableEq, Repr

/-- `TransactionImporter::import` (`src/src/importer/mod.rs` lines 112-144)
with the store effect reified as the list of writes it performs: skip
multiline continuations, classify, store uncategorized rows, skip ignored
categorizations, store categorized rows. -/
def importTxn (cz : Categorizer) (accountName : String) (t : Transaction) :
    Except CategorizationError (List DbWrite) :=
  if shouldSkipMultiline t then .ok []
  else do
    let status ← cz.categorize accountName t.name t.transactionType t.memo
    match status with
    | .uncategorized u => .ok [.addUncategorizedTransaction u]
    | .categorized c =>
      if c.ignore then .ok []
      else .ok [.addTransaction accountName c t]

/-! ## CSV adapter (`src/src/importer/csv_file.rs`) -/

/-- `CsvTransaction` (`csv_file.rs` lines 15-23); the commented out
transaction date and card number fields of the source are omitted here as
they are there. -/
structure CsvTransaction : Type where
  postedDate : Int
  description : String
  category : String
  debit : Option Rat
  credit : Option Rat
deriving DecidableEq, Repr

/-- `CsvTransaction::into_transaction` (`csv_file.rs` lines 26-45). -/
def CsvTransaction.intoTransaction (c : CsvTransaction) :
    Except String Transaction :=
  match c.debit, c.credit with
  | some d, none =>
    .ok ⟨.debit, c.postedDate, -d, none, some c.category, c.description, none⟩
  | none, some cr =>
    .ok ⟨.credit, c.postedDate, cr, none, some c.category, c.description, none⟩
  | some _, some _ =>
    .error "Cannot convert CsvTransaction with both debit and credit values"
  | none, none =>
    .error "Cannot convert CsvTransaction without a debit or credit value"

/-! ## Post phase date fill (`src/src-tauri/src/loader/mod.rs` lines 261-267
and `src/src-tauri/src/db/mod.rs` lines 75-81).  The dates table is modelled
as the list of inserted day numbers. -/

/-- The calendar days visited by `first_date.iter_days()` until the
`d > last_date` break: `first, first+1, ..., last`. -/
def dayRangeList (first last : Int) : List Int :=
  (List.range (last + 1 - first).toNat).map (fun i => first + i)

/-- The effect `DbHandle::add_date` has on the dates table when its future
is awaited (`db/mod.rs` lines 75-81): insert the row. -/
def addDate (table : List Int) (d : Int) : List Int :=
  table ++ [d]

/-- The date fill loop as written at `loader/mod.rs` lines 262-267.  The
source calls `conn.add_date(d);` WITHOUT `.await`: the returned future is
dropped without ever being polled, so the insert never runs and each
iteration leaves the table unchanged.  (Compare `add_category` directly
above it, which is awaited.) -/
def fillDateRange (first last : Int) (table : List Int) : List Int :=
  (dayRangeList first last).foldl (fun t _d => t) table

/-! ## QFX tokenizer (`src/src/importer/qfx_file/lexer.rs`).  The lexer
works on raw bytes, modelled as `List Nat` with values below 256.  The
`encoding_rs` decoders (UTF-8 / Windows-1252) are abstracted as a
`decode : List Nat → Option String` parameter; the claims settled here do
not depend on the decoded text, only on whether decoding succeeds. -/

/-- A byte range into the buffer (`std::ops::Range<usize>`). -/
structure BRange : Type where
  start : Nat
  stop : Nat
deriving DecidableEq, Repr

/-- `u8::is_ascii_whitespace`: space, tab, newline, form feed, carriage
return. -/
def isAsciiWhitespaceB (b : Nat) : Bool :=
  b = 32 || b = 9 || b = 10 || b = 12 || b = 13

/-- `count_leading_ascii` (`lexer.rs` lines 23-35). -/
def countLeadingAscii : List Nat → Nat
  | [] => 0
  | b :: rest =>
    if isAsciiWhitespaceB b then countLeadingAscii rest + 1 else 0

/-- `count_trailing_ascii` (`lexer.rs` lines 37-49). -/
def countTrailingAscii (l : List Nat) : Nat :=
  countLeadingAscii l.reverse

/-- The byte slice `buf[range]`. -/
def sliceB (buf : List Nat) (r : BRange) : List Nat :=
  (buf.drop r.start).take (r.stop - r.start)

/-- `strip_ascii_range` (`lexer.rs` lines 51-59). -/
def stripAsciiRange (buf : List Nat) (r : BRange) : BRange :=
  let selected := sliceB buf r
  ⟨r.start + countLeadingAscii selected, r.stop - countTrailingAscii selected⟩

/-- `KeyType` (`lexer.rs` lines 17-21). -/
inductive KeyType : Type
  | key
  | closeKey
deriving DecidableEq, Repr

/-- `TokenSearch` (`lexer.rs` lines 61-65). -/
structure TokenSearch : Type where
  consumed : Nat
  valueRange : BRange
  keyType : Option KeyType
deriving DecidableEq, Repr

/-- The scanning loop of `find_token` (`lexer.rs` lines 70-122) together
with its end of buffer handling; `idx` is the absolute position in `orig`
of the head of the remaining list. -/
def findTokenAux (orig : List Nat) :
    List Nat → Nat → Option KeyType → Except String TokenSearch
  | [], _idx, kt =>
    match kt with
    | some _ => .error "End of file in key"
    | none => .ok ⟨orig.length, ⟨0, orig.length⟩, none⟩
  | b :: rest, idx, kt =>
    if b = 60 then
      -- byte 60 is the open angle bracket
      match kt with
      | some _ => .error "Start of key inside key"
      | none =>
        if 0 < idx then .ok ⟨idx, ⟨0, idx⟩, none⟩
        else findTokenAux orig rest (idx + 1) (some .key)
    else if b = 62 then
      -- byte 62 is the close angle bracket
      match kt with
      | some .key => .ok ⟨idx + 1, ⟨1, idx⟩, some .key⟩
      | some .closeKey => .ok ⟨idx + 1, ⟨2, idx⟩, some .closeKey⟩
      | none => .error "End of key without start of key"
    else if b = 47 then
      -- byte 47 is the slash
      match kt with
      | some .key =>
        if idx ≠ 1 then .error "Slash in key name"
        else findTokenAux orig rest (idx + 1) (some .closeKey)
      | some .closeKey => .error "Slash in key name"
      | none => findTokenAux orig rest (idx + 1) none
    else findTokenAux orig rest (idx + 1) kt

/-- `find_token` (`lexer.rs` lines 67-140). -/
def findToken (buf : List Nat) : Except String TokenSearch :=
  if buf.isEmpty then .error "Cannot find token in empty buf"
  else findTokenAux buf buf 0 none

/-- `QfxToken` (`lexer.rs` lines 10-15); keys carry their raw bytes, values
the decoded string. -/
inductive LexToken : Type
  | openKey (k : List Nat)
  | closeKey (k : List Nat)
  | value (v : String)
deriving DecidableEq, Repr

/-- The mutable part of `Lexer` (`lexer.rs` lines 142-150). -/
structure LexerState : Type where
  data : List Nat
  hideFieldClose : Bool
  lastOpen : Option BRange
  consumed : Nat
  lastItemWasValue : Bool
deriving DecidableEq, Repr

/-- The close tag elision test of `Lexer::next` (`lexer.rs` lines 205-209):
suppress a close key exactly when eliding is enabled, the previous token was
a value, and the remembered open key bytes equal the close key bytes. -/
def hideCloseDecision (hideFieldClose lastWasValue : Bool)
    (lastOpenBytes : Option (List Nat)) (closeBytes : List Nat) : Bool :=
  hideFieldClose && lastWasValue && (lastOpenBytes = some closeBytes)

/-- The loop body of `Lexer::next` (`lexer.rs` lines 173-238), fuelled.  A
fuel of `data.length + 1` always suffices because every iteration consumes
at least one byte. -/
def lexNext (decode : List Nat → Option String) :
    Nat → LexerState → Except String (Option (LexToken × LexerState))
  | 0, _ => .error "Out of fuel"
  | fuel + 1, st =>
    if st.consumed = st.data.length then .ok none
    else
      match findToken (st.data.drop st.consumed) with
      | .error e => .error e
      | .ok search =>
        let range0 : BRange :=
          ⟨search.valueRange.start + st.consumed,
           search.valueRange.stop + st.consumed⟩
        let range := stripAsciiRange st.data range0
        let st1 := { st with consumed := st.consumed + search.consumed }
        match search.keyType with
        | some kt =>
          if range.stop ≤ range.start then .error "Empty key"
          else
            let kval := sliceB st.data range
            match kt with
            | .key =>
              .ok (some (.openKey kval,
                { st1 with lastItemWasValue := false, lastOpen := some range }))
            | .closeKey =>
              let lastOpenTaken := st1.lastOpen
              let hide := hideCloseDecision st.hideFieldClose
                st.lastItemWasValue
                (lastOpenTaken.map (fun r => sliceB st.data r)) kval
              let st2 :=
                { st1 with lastOpen := none, lastItemWasValue := false }
              if hide then lexNext decode fuel st2
              else .ok (some (.closeKey kval, st2))
        | none =>
          if range.stop ≤ range.start then lexNext decode fuel st1
          else
            match decode (sliceB st.data range) with
            | none => .error "Failed to decode value"
            | some s =>
              .ok (some (.value s, { st1 with lastItemWasValue := true }))

/-- `Lexer::new` (`lexer.rs` lines 153-167). -/
def lexerInit (data : List Nat) (hideFieldClose : Bool) : LexerState :=
  ⟨data, hideFieldClose, none, 0, false⟩

/-- One `Lexer::next` call with enough fuel for the whole buffer. -/
def lexerNext (decode : List Nat → Option String) (st : LexerState) :
    Except String (Option (LexToken × LexerState)) :=
  lexNext decode (st.data.length + 1) st

/-- Drain the lexer, collecting every emitted token. -/
def lexDrain (decode : List Nat → Option String) :
    Nat → LexerState → Except String (List LexToken)
  | 0, _ => .error "Out of fuel"
  | fuel + 1, st =>
    match lexerNext decode st with
    | .error e => .error e
    | .ok none => .ok []
    | .ok (some (t, st2)) => (lexDrain decode fuel st2).map (fun ts => t :: ts)

/-- The full token stream the lexer produces for a buffer. -/
def lexTokens (decode : List Nat → Option String) (hideFieldClose : Bool)
    (data : List Nat) : Except String (List LexToken) :=
  lexDrain decode (data.length + 1) (lexerInit data hideFieldClose)

/-- The third argument `QfxReader::load` passes to `Lexer::new`
(`src/src/importer/qfx_file/mod.rs` line 95): the elision flag is the XML
dialect flag. -/
def qfxReaderHideFieldClose (isXml : Bool) : Bool :=
  isXml

/-- ASCII-only decoding: the common restriction of UTF-8 and Windows-1252,
both of which are ASCII compatible; used to instantiate `decode` on
concrete ASCII inputs. -/
def asciiDecode (bs : List Nat) : Option String :=
  if bs.all (fun b => b < 128) then
    some (String.mk (bs.map (fun b => Char.ofNat b)))
  else none

/-- Bytes of an ASCII string, matching Rust byte literals for ASCII text. -/
def strBytes (s : String) : List Nat :=
  s.data.map Char.toNat

/-! ## OFX document state machine
(`src/src/importer/qfx_file/mod.rs`, `DocumentParser`).  The machine
consumes the lexer's token stream; tag names are compared as strings here
(the source compares byte slices, an equivalent test).  The value level
codecs - `u32::from_str`, `Decimal::from_str`, and the two chrono timestamp
forms (whose naive fallback reads the host local offset) - are abstracted
as a `ValueFns` record of partial functions; none of the claims settled
here depend on their internals. -/

/-- `QfxTransactionType` (`qfx_file/mod.rs` lines 226-233). -/
inductive QfxTransactionType : Type
  | debit
  | credit
  | pos
  | atm
  | fee
  | other
deriving DecidableEq, Repr

/-- A `DateTime<FixedOffset>` is modelled by the data the pipeline later
projects from it: its naive calendar day (`date_naive`), plus the second of
day and offset to keep the timestamp itself distinguishable. -/
structure QfxDateTime : Type where
  dayNaive : Int
  secondOfDay : Nat
  offsetSeconds : Int
deriving DecidableEq, Repr

/-- `StatementTransaction` (`qfx_file/mod.rs` lines 208-218).  The
discarded `user_date` and `account_to` are dropped before construction in
the source and are therefore absent here too. -/
structure StatementTransaction : Type where
  transactionType : QfxTransactionType
  datePosted : QfxDateTime
  amount : Rat
  transactionId : String
  name : String
  memo : Option String
deriving DecidableEq, Repr

/-- Token stream element as seen by the document machine (lexer output with
names decoded; the source compares `&[u8]` against byte literals). -/
inductive PToken : Type
  | openKey (k : String)
  | closeKey (k : String)
  | val (v : String)
deriving DecidableEq, Repr

/-- The abstracted value codecs used by `get_u32`, `get_decimal`,
`get_timestamp` and `get_timestamp_naive`. -/
structure ValueFns : Type where
  u32 : String → Option Nat
  decimal : String → Option Rat
  timestamp : String → Option QfxDateTime
  timestampNaive : String → Option Int

/-- `ParserState` (`qfx_file/mod.rs` lines 241-250). -/
inductive ParserState : Type
  | notStarted
  | readOpen
  | readClose
  | readInstitutionMessage
  | readStatementTransactionResponse
  | readStatementResponse
  | readTransactionList
  | readTransaction
deriving DecidableEq, Repr

/-- The persistent state of `DocumentParser`
(`qfx_file/mod.rs` lines 252-269). -/
structure DocState : Type where
  state : ParserState
  institutionMessageResponseName : Option String
  statementTransactionResponseName : Option String
  statementResponseName : Option String
  readSignOnMessageResponse : Bool
  readTransactionId : Bool
  readStatus : Bool
  readCurrency : Bool
  readAccountFrom : Bool
  readStartDate : Bool
  readEndDate : Bool
  readLedgerBalance : Bool
  readAvailableBalance : Bool
deriving DecidableEq, Repr

/-- `DocumentParser::new` (`qfx_file/mod.rs` lines 272-290). -/
def initDocState : DocState :=
  ⟨.notStarted, none, none, none,
   false, false, false, false, false, false, false, false, false⟩

/-- The per call option fields of `next_statement_transaction`
(`qfx_file/mod.rs` lines 293-301).  `user_date` and `account_to` are
accepted and discarded; `AccountTo` is an empty struct. -/
structure TxnFields : Type where
  transactionType : Option QfxTransactionType
  datePosted : Option QfxDateTime
  userDate : Option Int
  amount : Option Rat
  transactionId : Option String
  name : Option String
  accountTo : Option Unit
  memo : Option String
deriving DecidableEq, Repr

/-- All fields empty, as at the top of `next_statement_transaction`. -/
def emptyTxnFields : TxnFields :=
  ⟨none, none, none, none, none, none, none, none⟩

/-- `get_token` (`qfx_file/mod.rs` lines 602-604). -/
def getToken (toks : List PToken) : Except String (PToken × List PToken) :=
  match toks with
  | [] => .error "Unexpected end of file"
  | t :: rest => .ok (t, rest)

/-- `get_field` (`qfx_file/mod.rs` lines 587-593): an open key, or `none`
when the enclosing struct's close key arrives. -/
def getFieldTok (structName : String) (toks : List PToken) :
    Except String (Option String × List PToken) :=
  match toks with
  | [] => .error "Unexpected end of file"
  | .openKey k :: rest => .ok (some k, rest)
  | .closeKey k :: rest =>
    if k = structName then .ok (none, rest)
    else .error "Expected key, got mismatched close key"
  | .val _ :: _ => .error "Expected key, got value"

/-- `get_value` (`qfx_file/mod.rs` lines 595-600). -/
def getValueTok (toks : List PToken) : Except String (String × List PToken) :=
  match toks with
  | .val v :: rest => .ok (v, rest)
  | [] => .error "Unexpected end of file"
  | _ :: _ => .error "Expected value, got key"

/-- `get_u32` (`qfx_file/mod.rs` lines 606-610). -/
def getU32 (vp : ValueFns) (toks : List PToken) :
    Except String (Nat × List PToken) := do
  let (v, rest) ← getValueTok toks
  match vp.u32 v with
  | some n => .ok (n, rest)
  | none => .error "Failed to parse u32 value"

/-- `get_decimal` (`qfx_file/mod.rs` lines 612-616). -/
def getDecimalV (vp : ValueFns) (toks : List PToken) :
    Except String (Rat × List PToken) := do
  let (v, rest) ← getValueTok toks
  match vp.decimal v with
  | some q => .ok (q, rest)
  | none => .error "Failed to parse float value"

/-- `get_timestamp` (`qfx_file/mod.rs` lines 618-656), abstracted. -/
def getTimestampV (vp : ValueFns) (toks : List PToken) :
    Except String (QfxDateTime × List PToken) := do
  let (v, rest) ← getValueTok toks
  match vp.timestamp v with
  | some d => .ok (d, rest)
  | none => .error "Failed to parse timestamp"

/-- `get_timestamp_naive` (`qfx_file/mod.rs` lines 658-662), abstracted. -/
def getTimestampNaiveV (vp : ValueFns) (toks : List PToken) :
    Except String (Int × List PToken) := do
  let (v, rest) ← getValueTok toks
  match vp.timestampNaive v with
  | some d => .ok (d, rest)
  | none => .error "Failed to parse naive date value"

/-- `get_severity` (`qfx_file/mod.rs` lines 664-670): only INFO is
accepted. -/
def getSeverityV (toks : List PToken) : Except String (Unit × List PToken) := do
  let (v, rest) ← getValueTok toks
  if v = "INFO" then .ok ((), rest)
  else .error ("Unexpected severity: " ++ v)

/-- `check_currency` (`qfx_file/mod.rs` lines 672-678): only CAD is
accepted. -/
def checkCurrencyV (toks : List PToken) : Except String (Unit × List PToken) := do
  let (v, rest) ← getValueTok toks
  if v = "CAD" then .ok ((), rest)
  else .error ("Unexpected currency: " ++ v)

/-- `get_account_type` (`qfx_file/mod.rs` lines 680-686): only SAVINGS is
accepted. -/
def getAccountTypeV (toks : List PToken) : Except String (Unit × List PToken) := do
  let (v, rest) ← getValueTok toks
  if v = "SAVINGS" then .ok ((), rest)
  else .error ("Unexpected account type: " ++ v)

/-- `get_transaction_type` (`qfx_file/mod.rs` lines 688-699). -/
def getTransactionTypeV (toks : List PToken) :
    Except String (QfxTransactionType × List PToken) := do
  let (v, rest) ← getValueTok toks
  if v = "DEBIT" then .ok (.debit, rest)
  else if v = "CREDIT" then .ok (.credit, rest)
  else if v = "POS" then .ok (.pos, rest)
  else if v = "ATM" then .ok (.atm, rest)
  else if v = "FEE" then .ok (.fee, rest)
  else if v = "OTHER" then .ok (.other, rest)
  else .error ("Unexpected transaction type: " ++ v)

/-- `TrackField::set_with_value` on a seen flag
(`qfx_file/mod.rs` lines 162-176): run the nested check, then record the
struct as seen, rejecting duplicates and wrapping nested failures. -/
def stepFlag (sName : String) (flag : Bool) :
    Except String (List PToken) → Except String (Bool × List PToken)
  | .ok rest =>
    if flag then .error ("Duplicate struct " ++ sName)
    else .ok (true, rest)
  | .error e =>
    if flag then
      .error ("Failed to parse duplicate struct " ++ sName ++ ": " ++ e)
    else .error ("Failed to parse struct " ++ sName ++ ": " ++ e)

/-- Drop a parsed value, keeping the remaining tokens, for
`set_with_value` call sites. -/
def dropVal {α : Type} :
    Except String (α × List PToken) → Except String (List PToken)
  | .ok (_, rest) => .ok rest
  | .error e => .error e

/-- `PutOrElse::put_or_else` on an `Option` field
(`qfx_file/mod.rs` lines 126-140): a duplicate key is rejected before the
value result is inspected; a value error is wrapped with the key name. -/
def putField {α : Type} (name : String) (cur : Option α)
    (res : Except String (α × List PToken)) :
    Except String (Option α × List PToken) :=
  match cur with
  | some _ => .error ("Duplicate key " ++ name)
  | none =>
    match res with
    | .ok (v, rest) => .ok (some v, rest)
    | .error e => .error ("Error parsing key " ++ name ++ ": " ++ e)

/-- `put_or_else` on a `OnceCell` name slot
(`qfx_file/mod.rs` lines 146-151). -/
def putName (name : String) (cur : Option String) (v : String) :
    Except String (Option String) :=
  match cur with
  | some _ => .error ("Duplicate key " ++ name)
  | none => .ok (some v)

/-- `check_status` (`qfx_file/mod.rs` lines 490-509): CODE and SEVERITY
required, MESSAGE optional. -/
def checkStatusLoop (vp : ValueFns) :
    Nat → Bool → Bool → Bool → List PToken → Except String (List PToken)
  | 0, _, _, _, _ => .error "Out of fuel"
  | fuel + 1, code, severity, message, toks => do
    let (field, rest) ← getFieldTok "STATUS" toks
    match field with
    | some k =>
      if k = "CODE" then do
        let (code2, rest2) ← stepFlag "CODE" code (dropVal (getU32 vp rest))
        checkStatusLoop vp fuel code2 severity message rest2
      else if k = "SEVERITY" then do
        let (sev2, rest2) ← stepFlag "SEVERITY" severity (dropVal (getSeverityV rest))
        checkStatusLoop vp fuel code sev2 message rest2
      else if k = "MESSAGE" then do
        let (msg2, rest2) ← stepFlag "MESSAGE" message (dropVal (getValueTok rest))
        checkStatusLoop vp fuel code severity msg2 rest2
      else .error ("Unexpected key " ++ k)
    | none =>
      if code = false then .error "Missing field CODE"
      else if severity = false then .error "Missing field SEVERITY"
      else .ok rest

/-- `check_financial_institution` (`qfx_file/mod.rs` lines 511-526): ORG
and FID required. -/
def checkFinancialInstitution (vp : ValueFns) :
    Nat → Bool → Bool → List PToken → Except String (List PToken)
  | 0, _, _, _ => .error "Out of fuel"
  | fuel + 1, organization, institutionId, toks => do
    let (field, rest) ← getFieldTok "FI" toks
    match field with
    | some k =>
      if k = "ORG" then do
        let (o2, rest2) ← stepFlag "ORG" organization (dropVal (getValueTok rest))
        checkFinancialInstitution vp fuel o2 institutionId rest2
      else if k = "FID" then do
        let (f2, rest2) ← stepFlag "FID" institutionId (dropVal (getU32 vp rest))
        checkFinancialInstitution vp fuel organization f2 rest2
      else .error ("Unexpected key " ++ k)
    | none =>
      if organization = false then .error "Missing field ORG"
      else if institutionId = false then .error "Missing field FID"
      else .ok rest

/-- `check_account_from` (`qfx_file/mod.rs` lines 528-546): only ACCTID is
required; BANKID and ACCTTYPE are tracked but optional. -/
def checkAccountFrom (vp : ValueFns) (sName : String) :
    Nat → Bool → Bool → Bool → List PToken → Except String (List PToken)
  | 0, _, _, _, _ => .error "Out of fuel"
  | fuel + 1, bankId, accountNumber, accountType, toks => do
    let (field, rest) ← getFieldTok sName toks
    match field with
    | some k =>
      if k = "BANKID" then do
        let (b2, rest2) ← stepFlag "BANKID" bankId (dropVal (getU32 vp rest))
        checkAccountFrom vp sName fuel b2 accountNumber accountType rest2
      else if k = "ACCTID" then do
        let (a2, rest2) ← stepFlag "ACCTID" accountNumber (dropVal (getU32 vp rest))
        checkAccountFrom vp sName fuel bankId a2 accountType rest2
      else if k = "ACCTTYPE" then do
        let (t2, rest2) ← stepFlag "ACCTTYPE" accountType (dropVal (getAccountTypeV rest))
        checkAccountFrom vp sName fuel bankId accountNumber t2 rest2
      else .error ("Unexpected key " ++ k)
    | none =>
      if accountNumber = false then .error "Missing field ACCTID"
      else .ok rest

/-- `check_balance` (`qfx_file/mod.rs` lines 548-564): BALAMT and DTASOF
required. -/
def checkBalance (vp : ValueFns) (sName : String) :
    Nat → Bool → Bool → List PToken → Except String (List PToken)
  | 0, _, _, _ => .error "Out of fuel"
  | fuel + 1, amount, timestamp, toks => do
    let (field, rest) ← getFieldTok sName toks
    match field with
    | some k =>
      if k = "BALAMT" then do
        let (a2, rest2) ← stepFlag "BALAMT" amount (dropVal (getDecimalV vp rest))
        checkBalance vp sName fuel a2 timestamp rest2
      else if k = "DTASOF" then do
        let (t2, rest2) ← stepFlag "DTASOF" timestamp (dropVal (getTimestampV vp rest))
        checkBalance vp sName fuel amount t2 rest2
      else .error ("Unexpected key " ++ k)
    | none =>
      if amount = false then .error "Missing field BALAMT"
      else if timestamp = false then .error "Missing field DTASOF"
      else .ok rest

/-- `check_sign_on_response` (`qfx_file/mod.rs` lines 455-488): STATUS,
DTSERVER, LANGUAGE, FI and INTU.BID required, DTPROFUP optional. -/
def checkSignOnResponse (vp : ValueFns) :
    Nat → Bool → Bool → Bool → Bool → Bool → Bool → List PToken →
    Except String (List PToken)
  | 0, _, _, _, _, _, _, _ => .error "Out of fuel"
  | fuel + 1, status, serverDate, language, lastProfileUpdate,
      financialInstitution, bankId, toks => do
    let (field, rest) ← getFieldTok "SONRS" toks
    match field with
    | some k =>
      if k = "STATUS" then do
        let (s2, rest2) ← stepFlag "STATUS" status
          (checkStatusLoop vp fuel false false false rest)
        checkSignOnResponse vp fuel s2 serverDate language lastProfileUpdate
          financialInstitution bankId rest2
      else if k = "DTSERVER" then do
        let (d2, rest2) ← stepFlag "DTSERVER" serverDate (dropVal (getTimestampV vp rest))
        checkSignOnResponse vp fuel status d2 language lastProfileUpdate
          financialInstitution bankId rest2
      else if k = "LANGUAGE" then do
        let (l2, rest2) ← stepFlag "LANGUAGE" language (dropVal (getValueTok rest))
        checkSignOnResponse vp fuel status serverDate l2 lastProfileUpdate
          financialInstitution bankId rest2
      else if k = "DTPROFUP" then do
        let (p2, rest2) ← stepFlag "DTPROFUP" lastProfileUpdate (dropVal (getTimestampV vp rest))
        checkSignOnResponse vp fuel status serverDate language p2
          financialInstitution bankId rest2
      else if k = "FI" then do
        let (f2, rest2) ← stepFlag "FI" financialInstitution
          (checkFinancialInstitution vp fuel false false rest)
        checkSignOnResponse vp fuel status serverDate language lastProfileUpdate
          f2 bankId rest2
      else if k = "INTU.BID" then do
        let (b2, rest2) ← stepFlag "INTU.BID" bankId (dropVal (getU32 vp rest))
        checkSignOnResponse vp fuel status serverDate language lastProfileUpdate
          financialInstitution b2 rest2
      else .error ("Unexpected key " ++ k)
    | none =>
      if status = false then .error "Missing field STATUS"
      else if serverDate = false then .error "Missing field DTSERVER"
      else if language = false then .error "Missing field LANGUAGE"
      else if financialInstitution = false then .error "Missing field FI"
      else if bankId = false then .error "Missing field INTU.BID"
      else .ok rest

/-- `check_sign_on_message_response_v1`
(`qfx_file/mod.rs` lines 439-453): one SONRS required. -/
def checkSignOnMessageResponseV1 (vp : ValueFns) :
    Nat → Bool → List PToken → Except String (List PToken)
  | 0, _, _ => .error "Out of fuel"
  | fuel + 1, signOnResponse, toks => do
    let (field, rest) ← getFieldTok "SIGNONMSGSRSV1" toks
    match field with
    | some k =>
      if k = "SONRS" then do
        let (s2, rest2) ← stepFlag "SONRS" signOnResponse
          (checkSignOnResponse vp fuel false false false false false false rest)
        checkSignOnMessageResponseV1 vp fuel s2 rest2
      else .error ("Unexpected key " ++ k)
    | none =>
      if signOnResponse = false then .error "Missing field SIGNONMSGSRSV1"
      else .ok rest

/-- `get_account_to` (`qfx_file/mod.rs` lines 566-578): ACCTID required,
result discarded. -/
def getAccountTo (vp : ValueFns) :
    Nat → Option Nat → List PToken → Except String (Unit × List PToken)
  | 0, _, _ => .error "Out of fuel"
  | fuel + 1, accountId, toks => do
    let (field, rest) ← getFieldTok "CCACCTTO" toks
    match field with
    | some k =>
      if k = "ACCTID" then do
        let (a2, rest2) ← putField "ACCTID" accountId (getU32 vp rest)
        getAccountTo vp fuel a2 rest2
      else .error ("Unexpected key " ++ k)
    | none =>
      match accountId with
      | none => .error "Missing key ACCTID"
      | some _ => .ok ((), rest)

/-- `expect_done` (`qfx_file/mod.rs` lines 701-706). -/
def expectDone (toks : List PToken) : Except String Unit :=
  match toks with
  | [] => .ok ()
  | _ :: _ => .error "Unexpected token at end of file"

/-- The close of a STMTTRN block (`qfx_file/mod.rs` lines 416-432): drop
the discarded fields and require TRNTYPE, DTPOSTED, TRNAMT, FITID and NAME
in the order the struct literal evaluates them. -/
def finishTransaction (f : TxnFields) : Except String StatementTransaction :=
  match f.transactionType with
  | none => .error "Missing key TRNTYPE"
  | some tt =>
    match f.datePosted with
    | none => .error "Missing key DTPOSTED"
    | some dp =>
      match f.amount with
      | none => .error "Missing key TRNAMT"
      | some amt =>
        match f.transactionId with
        | none => .error "Missing key FITID"
        | some tid =>
          match f.name with
          | none => .error "Missing key NAME"
          | some nm => .ok ⟨tt, dp, amt, tid, nm, f.memo⟩

/-- The main loop of `next_statement_transaction`
(`qfx_file/mod.rs` lines 303-436), fuelled; every iteration consumes at
least one token, so a fuel of one more than the token count suffices. -/
def docLoop (vp : ValueFns) :
    Nat → DocState → TxnFields → List PToken →
    Except String (Option StatementTransaction × DocState × List PToken)
  | 0, _, _, _ => .error "Out of fuel"
  | fuel + 1, ds, f, toks =>
    match ds.state with
    | .notStarted => do
      let (t, rest) ← getToken toks
      match t with
      | .openKey k =>
        if k = "OFX" then
          docLoop vp fuel { ds with state := .readOpen } f rest
        else .error ("Unexpected key " ++ k ++ " for state NotStarted")
      | _ => .error "Expected key"
    | .readOpen => do
      let (field, rest) ← getFieldTok "OFX" toks
      match field with
      | some k =>
        if k = "SIGNONMSGSRSV1" then do
          let (flag2, rest2) ← stepFlag "SIGNONMSGSRSV1"
            ds.readSignOnMessageResponse
            (checkSignOnMessageResponseV1 vp fuel false rest)
          docLoop vp fuel { ds with readSignOnMessageResponse := flag2 } f rest2
        else if k = "BANKMSGSRSV1" then do
          let n2 ← putName "BANKMSGSRSV1"
            ds.institutionMessageResponseName "BANKMSGSRSV1"
          docLoop vp fuel
            { ds with institutionMessageResponseName := n2,
                      state := .readInstitutionMessage } f rest
        else if k = "CREDITCARDMSGSRSV1" then do
          let n2 ← putName "CREDITCARDMSGSRSV1"
            ds.institutionMessageResponseName "CREDITCARDMSGSRSV1"
          docLoop vp fuel
            { ds with institutionMessageResponseName := n2,
                      state := .readInstitutionMessage } f rest
        else .error ("Unexpected key " ++ k ++ " for state ReadOpen")
      | none => do
        let _ ← expectDone rest
        docLoop vp fuel { ds with state := .readClose } f rest
    | .readInstitutionMessage => do
      let instName ←
        match ds.institutionMessageResponseName with
        | some n => Except.ok n
        | none => .error "Missing institution response in ReadInstitutionMessage state"
      let (field, rest) ← getFieldTok instName toks
      match field with
      | some k =>
        if k = "STMTTRNRS" then do
          let n2 ← putName "STMTTRNRS"
            ds.statementTransactionResponseName "STMTTRNRS"
          docLoop vp fuel
            { ds with statementTransactionResponseName := n2,
                      state := .readStatementTransactionResponse } f rest
        else if k = "CCSTMTTRNRS" then do
          let n2 ← putName "CCSTMTTRNRS"
            ds.statementTransactionResponseName "CCSTMTTRNRS"
          docLoop vp fuel
            { ds with statementTransactionResponseName := n2,
                      state := .readStatementTransactionResponse } f rest
        else .error ("Unexpected key " ++ k ++ " for state ReadInstitutionMessage")
      | none => docLoop vp fuel { ds with state := .readOpen } f rest
    | .readStatementTransactionResponse => do
      let respName ←
        match ds.statementTransactionResponseName with
        | some n => Except.ok n
        | none => .error "Missing statement transaction response in ReadStatementTransactionRecord state"
      let (field, rest) ← getFieldTok respName toks
      match field with
      | some k =>
        if k = "TRNUID" then do
          let (flag2, rest2) ← stepFlag "TRNUID" ds.readTransactionId
            (dropVal (getU32 vp rest))
          docLoop vp fuel { ds with readTransactionId := flag2 } f rest2
        else if k = "STATUS" then do
          let (flag2, rest2) ← stepFlag "STATUS" ds.readStatus
            (checkStatusLoop vp fuel false false false rest)
          docLoop vp fuel { ds with readStatus := flag2 } f rest2
        else if k = "STMTRS" then do
          let n2 ← putName "STMTRS" ds.statementResponseName "STMTRS"
          docLoop vp fuel
            { ds with statementResponseName := n2,
                      state := .readStatementResponse } f rest
        else if k = "CCSTMTRS" then do
          let n2 ← putName "CCSTMTRS" ds.statementResponseName "CCSTMTRS"
          docLoop vp fuel
            { ds with statementResponseName := n2,
                      state := .readStatementResponse } f rest
        else .error ("Unexpected key " ++ k ++ " for state ReadStatementTransactionResponse")
      | none =>
        docLoop vp fuel { ds with state := .readInstitutionMessage } f rest
    | .readStatementResponse => do
      let respName ←
        match ds.statementResponseName with
        | some n => Except.ok n
        | none => .error "Missing statement response in ReadStatementResponse state"
      let (field, rest) ← getFieldTok respName toks
      match field with
      | some k =>
        if k = "CURDEF" then do
          let (flag2, rest2) ← stepFlag "CURDEF" ds.readCurrency
            (dropVal (checkCurrencyV rest))
          docLoop vp fuel { ds with readCurrency := flag2 } f rest2
        else if k = "BANKACCTFROM" then do
          let (flag2, rest2) ← stepFlag "BANKACCTFROM" ds.readAccountFrom
            (checkAccountFrom vp "BANKACCTFROM" fuel false false false rest)
          docLoop vp fuel { ds with readAccountFrom := flag2 } f rest2
        else if k = "CCACCTFROM" then do
          let (flag2, rest2) ← stepFlag "CCACCTFROM" ds.readAccountFrom
            (checkAccountFrom vp "CCACCTFROM" fuel false false false rest)
          docLoop vp fuel { ds with readAccountFrom := flag2 } f rest2
        else if k = "BANKTRANLIST" then
          docLoop vp fuel { ds with state := .readTransactionList } f rest
        else if k = "LEDGERBAL" then do
          let (flag2, rest2) ← stepFlag "LEDGERBAL" ds.readLedgerBalance
            (checkBalance vp "LEDGERBAL" fuel false false rest)
          docLoop vp fuel { ds with readLedgerBalance := flag2 } f rest2
        else if k = "AVAILBAL" then do
          let (flag2, rest2) ← stepFlag "AVAILBAL" ds.readAvailableBalance
            (checkBalance vp "AVAILBAL" fuel false false rest)
          docLoop vp fuel { ds with readAvailableBalance := flag2 } f rest2
        else .error ("Unexpected key " ++ k ++ " for state ReadStatementResponse")
      | none =>
        docLoop vp fuel
          { ds with state := .readStatementTransactionResponse } f rest
    | .readTransactionList => do
      let (field, rest) ← getFieldTok "BANKTRANLIST" toks
      match field with
      | some k =>
        if k = "DTSTART" then do
          let (flag2, rest2) ← stepFlag "DTSTART" ds.readStartDate
            (dropVal (getTimestampV vp rest))
          docLoop vp fuel { ds with readStartDate := flag2 } f rest2
        else if k = "DTEND" then do
          let (flag2, rest2) ← stepFlag "DTEND" ds.readEndDate
            (dropVal (getTimestampV vp rest))
          docLoop vp fuel { ds with readEndDate := flag2 } f rest2
        else if k = "STMTTRN" then
          docLoop vp fuel { ds with state := .readTransaction } f rest
        else .error ("Unexpected key " ++ k ++ " for state ReadTransactionList")
      | none =>
        docLoop vp fuel { ds with state := .readStatementResponse } f rest
    | .readTransaction => do
      let (field, rest) ← getFieldTok "STMTTRN" toks
      match field with
      | some k =>
        if k = "TRNTYPE" then do
          let (v2, rest2) ← putField "TRNTYPE" f.transactionType
            (getTransactionTypeV rest)
          docLoop vp fuel ds { f with transactionType := v2 } rest2
        else if k = "DTPOSTED" then do
          let (v2, rest2) ← putField "DTPOSTED" f.datePosted
            (getTimestampV vp rest)
          docLoop vp fuel ds { f with datePosted := v2 } rest2
        else if k = "DTUSER" then do
          let (v2, rest2) ← putField "DTUSER" f.userDate
            (getTimestampNaiveV vp rest)
          docLoop vp fuel ds { f with userDate := v2 } rest2
        else if k = "TRNAMT" then do
          let (v2, rest2) ← putField "TRNAMT" f.amount (getDecimalV vp rest)
          docLoop vp fuel ds { f with amount := v2 } rest2
        else if k = "FITID" then do
          let (v2, rest2) ← putField "FITID" f.transactionId (getValueTok rest)
          docLoop vp fuel ds { f with transactionId := v2 } rest2
        else if k = "NAME" then do
          let (v2, rest2) ← putField "NAME" f.name (getValueTok rest)
          docLoop vp fuel ds { f with name := v2 } rest2
        else if k = "CCACCTTO" then do
          let (v2, rest2) ← putField "CCACCTTO" f.accountTo
            (getAccountTo vp fuel none rest)
          docLoop vp fuel ds { f with accountTo := v2 } rest2
        else if k = "MEMO" then do
          let (v2, rest2) ← putField "MEMO" f.memo (getValueTok rest)
          docLoop vp fuel ds { f with memo := v2 } rest2
        else .error ("Unexpected key " ++ k ++ " for state ReadTransaction")
      | none => do
        let txn ← finishTransaction f
        .ok (some txn, { ds with state := .readTransactionList }, rest)
    | .readClose => .ok (none, ds, toks)

/-- One `next_statement_transaction` call from a fresh parser, with enough
fuel for the whole stream; returns the yielded transaction, if any. -/
def nextStatementTransaction (vp : ValueFns) (toks : List PToken) :
    Except String (Option StatementTransaction) :=
  (docLoop vp (toks.length + 1) initDocState emptyTxnFields toks).map
    (fun r => r.1)

/-- Value codecs that reject every string; usable on token streams that
contain no `val` tokens, where the codecs are never consulted. -/
def noneValueFns : ValueFns :=
  ⟨fun _ => none, fun _ => none, fun _ => none, fun _ => none⟩

/-! ## `QfxReader::load` conversion
(`src/src/importer/qfx_file/mod.rs` lines 98-119): each yielded
`StatementTransaction` becomes a pipeline `Transaction`. -/

/-- The `Transaction` built by `QfxReader::load` for one statement
transaction: the FITID always populates `transaction_id`. -/
def qfxLoadTransaction (st : StatementTransaction) : Transaction :=
  { transactionType :=
      match st.transactionType with
      | .debit => .debit
      | .credit => .credit
      | .pos => .pos
      | .atm => .atm
      | .fee => .fee
      | .other => .other
    datePosted := st.datePosted.dayNaive
    amount := st.amount
    transactionId := some st.transactionId
    category := none
    name := st.name
    memo := st.memo }

/-! ## Concrete instances used by witnesses and counterexamples -/

/-- Token stream of an OFX document whose STMTRS container is closed
empty: none of its required children (CURDEF, an account-from,
BANKTRANLIST, LEDGERBAL) ever appear, and the enclosing containers are
closed right after. -/
def emptyStmtrsToks : List PToken :=
  [.openKey "OFX", .openKey "BANKMSGSRSV1", .openKey "STMTTRNRS",
   .openKey "STMTRS", .closeKey "STMTRS", .closeKey "STMTTRNRS",
   .closeKey "BANKMSGSRSV1", .closeKey "OFX"]

/-- A decoder with pattern map; used to populate demo categorizers. -/
def demoDecoder : TransactionDecoder :=
  ⟨.debitPurchase, .name, false, [("COFFEE", ⟨"Food", false⟩)]⟩

/-- A decoder whose name source is `NameSuffix`. -/
def demoSuffixDecoder : TransactionDecoder :=
  ⟨.sentEtransfer, .nameSuffix, false, []⟩

/-- A categorizer where account `acct` has both a prefix entry and a
source type entry, setting up the ambiguous configuration. -/
def demoBothCategorizer : Categorizer :=
  ⟨[("acct", [("POS PURCHASE ", demoDecoder)])],
   [("acct", [(.pos, demoDecoder)])], []⟩

/-- A categorizer where account `acct` resolves only through the source
type map, to a `NameSuffix` decoder. -/
def demoSuffixCategorizer : Categorizer :=
  ⟨[], [("acct", [(.pos, demoSuffixDecoder)])], []⟩

/-- A categorizer whose source type decoder's pattern map carries an
ignored display name. -/
def demoIgnoreCategorizer : Categorizer :=
  ⟨[], [("acct", [(.pos, ⟨.debitPurchase, .name, false,
     [("SKIP ME", ⟨"Ignored.Cat", true⟩)]⟩)])], []⟩

/-- Demo rules: one live rule and one ignored rule. -/
def demoRules : List TransactionRuleConfig :=
  [⟨.debitPurchase, "Food", false, ["COFFEE"]⟩,
   ⟨.debitPurchase, "Ignored.Cat", true, ["SKIP"]⟩]

/-- Demo transaction type configs: a single prefix mode type. -/
def demoTts : List TransactionTypeConfig :=
  [⟨.prefixMode, some "POS ", none, .debitPurchase, false, .name, ["acct"]⟩]

/-- The categorizer built from the demo configuration. -/
def demoBuilt : Categorizer :=
  (Categorizer.build demoTts demoRules).toOption.getD ⟨[], [], []⟩

/-- A multiline continuation transaction: dotted id, zero amount. -/
def demoMultilineTxn : Transaction :=
  ⟨.debit, 19738, 0, some "X1.2", none, "Coffee Shop", none⟩

/-- A CSV row with only the debit column set. -/
def demoCsvDebit : CsvTransaction :=
  ⟨19738, "Coffee Shop", "Dining", some 5, none⟩

/-- A statement transaction as yielded for scenario S1. -/
def demoStatementTxn : StatementTransaction :=
  ⟨.debit, ⟨19738, 43200, -18000⟩, -(1234 : Rat) / 100, "X1", "Coffee Shop", none⟩

/-- The SGML and XML example buffer: an open tag, a value, and an explicit
matching close tag. -/
def elisionExampleBytes : List Nat :=
  strBytes "<A>v</A>"

/-! ## Helper lemmas -/

/-- Folding a list with a function that returns its accumulator unchanged
is the identity. -/
theorem foldl_drop_all {α β : Type} (l : List α) (init : β) :
    l.foldl (fun t _ => t) init = init := by
  induction l generalizing init with
  | nil => rfl
  | cons hd tl ih => exact ih init

/-- If some stored key with its decoder is a prefix of the queried name,
the longest prefix lookup finds an entry. -/
theorem longestPfxOf_isSome_of_mem {ps : List (String × TransactionDecoder)}
    {k nm : String} {d : TransactionDecoder}
    (hmem : (k, d) ∈ ps) (hpre : strIsPrefixOf k nm = true) :
    (longestPfxOf ps nm).isSome := by
  induction ps with
  | nil => cases hmem
  | cons hd tl ih =>
    obtain ⟨k2, v2⟩ := hd
    unfold longestPfxOf
    cases h : longestPfxOf tl nm with
    | none =>
      dsimp only
      rcases List.mem_cons.mp hmem with heq | hmem2
      · obtain ⟨hk, hv⟩ := Prod.mk.injEq .. ▸ heq
        subst hk
        simp [hpre]
      · have hs := ih hmem2
        rw [h] at hs
        simp at hs
    | some p =>
      obtain ⟨bk, bv⟩ := p
      dsimp only
      split <;> simp

/-- Membership in `insertSet` comes from the old set or the new element. -/
theorem mem_insertSet {α : Type} [DecidableEq α] {s : List α} {x y : α}
    (h : x ∈ insertSet s y) : x ∈ s ∨ x = y := by
  unfold insertSet at h
  split at h
  · exact .inl h
  · rcases List.mem_cons.mp h with h2 | h2
    · exact .inr h2
    · exact .inl h2

/-- Every element of the used categories set after one decoder's
contribution is either old or a non ignored pattern category paired with
the decoder's income flag. -/
theorem mem_addUsedCategories {income : Bool} {x : String × Bool} :
    ∀ (pcs : List (String × PatternCategory)) (used : List (String × Bool)),
    x ∈ addUsedCategories income pcs used →
    x ∈ used ∨ ∃ p pc, (p, pc) ∈ pcs ∧ pc.ignore = false ∧
      x = (pc.category, income)
  | [], _, h => .inl h
  | (p, pc) :: rest, used, h => by
    unfold addUsedCategories at h
    rcases mem_addUsedCategories rest _ h with h2 | ⟨p2, pc2, hm, hi, hx⟩
    · by_cases hig : pc.ignore
      · rw [if_pos hig] at h2
        exact .inl h2
      · rw [if_neg hig] at h2
        rcases mem_insertSet h2 with h3 | h3
        · exact .inl h3
        · exact .inr ⟨p, pc, List.mem_cons_self _ _, Bool.of_not_eq_true hig, h3⟩
    · exact .inr ⟨p2, pc2, List.mem_cons_of_mem _ hm, hi, hx⟩

/-- Looking up the key just set finds the new value. -/
theorem lookupA_setA_eq {α β : Type} [DecidableEq α]
    (m : List (α × β)) (k : α) (v : β) : lookupA (setA m k v) k = some v := by
  induction m with
  | nil => simp [setA, lookupA]
  | cons hd tl ih =>
    obtain ⟨k2, v2⟩ := hd
    unfold setA
    by_cases hk : k2 = k
    · simp [hk, lookupA]
    · simp only [if_neg hk]
      unfold lookupA
      simp [hk, ih]

/-- Looking up a different key is unaffected by `setA`. -/
theorem lookupA_setA_ne {α β : Type} [DecidableEq α]
    (m : List (α × β)) {k k2 : α} (v : β) (h : k2 ≠ k) :
    lookupA (setA m k v) k2 = lookupA m k2 := by
  induction m with
  | nil => simp [setA, lookupA, Ne.symm h]
  | cons hd tl ih =>
    obtain ⟨k3, v3⟩ := hd
    unfold setA
    by_cases hk : k3 = k
    · subst hk
      simp [lookupA, Ne.symm h]
    · simp only [if_neg hk]
      unfold lookupA
      by_cases hk2 : k3 = k2
      · simp [hk2]
      · simp [hk2, ih]

/-- Every pattern category inserted by `addRulePatterns` is either from the
old bucket or carries the rule's category and ignore flag. -/
theorem addRulePatterns_mem {cat : String} {ign : Bool} :
    ∀ (pats : List String) (bucket out : List (String × PatternCategory)),
    addRulePatterns cat ign pats bucket = .ok out →
    ∀ p pc, (p, pc) ∈ out → (p, pc) ∈ bucket ∨ pc = ⟨cat, ign⟩
  | [], bucket, out, h => by
    unfold addRulePatterns at h
    cases h
    exact fun _ _ hm => .inl hm
  | p0 :: rest, bucket, out, h => by
    unfold addRulePatterns at h
    cases hl : lookupA bucket p0 with
    | some e => rw [hl] at h; cases h
    | none =>
      rw [hl] at h
      intro p pc hm
      rcases addRulePatterns_mem rest _ out h p pc hm with h2 | h2
      · rcases List.mem_append.mp h2 with h3 | h3
        · exact .inl h3
        · right
          have := List.mem_singleton.mp h3
          exact (Prod.mk.injEq .. ▸ this).2
      · exact .inr h2

/-! ## C7: the categorizer classification is pure and deterministic -/

/-- C7: `Categorizer::categorize` takes the categorizer by shared
reference and is modelled by a pure function, so identical argument tuples
give identical results and the categorizer value itself is never changed. -/
theorem c7_categorize_deterministic (c : Categorizer)
    (a1 n1 : String) (t1 : TransactionType) (m1 : Option String)
    (a2 n2 : String) (t2 : TransactionType) (m2 : Option String)
    (ha : a1 = a2) (hn : n1 = n2) (ht : t1 = t2) (hm : m1 = m2) :
    c.categorize a1 n1 t1 m1 = c.categorize a2 n2 t2 m2 := by
  subst ha; subst hn; subst ht; subst hm; rfl

/-- Witness for C7 at a concrete categorizer and input. -/
theorem c7_categorize_deterministic_witness :
    Categorizer.categorize demoBothCategorizer "acct" "COFFEE" .debit none =
    Categorizer.categorize demoBothCategorizer "acct" "COFFEE" .debit none :=
  c7_categorize_deterministic demoBothCategorizer
    "acct" "COFFEE" .debit none "acct" "COFFEE" .debit none rfl rfl rfl rfl

/-! ## C5: the multiline continuation skip -/

/-- C5: a transaction whose id contains a dot and whose amount is zero is
dropped by `TransactionImporter::import`: for every categorizer the call
succeeds with no classification outcome and no store write at all. -/
theorem c5_multiline_skip (cz : Categorizer) (acct : String)
    (t : Transaction) (tid : String)
    (h1 : t.transactionId = some tid)
    (h2 : strContainsDot tid = true)
    (h3 : t.amount = 0) :
    importTxn cz acct t = .ok [] := by
  have hskip : shouldSkipMultiline t = true := by
    unfold shouldSkipMultiline
    rw [h1]
    simp [h2, h3]
  unfold importTxn
  rw [hskip]
  rfl

/-- Witness for C5 at the concrete continuation transaction. -/
theorem c5_multiline_skip_witness :
    importTxn demoBothCategorizer "acct" demoMultilineTxn = .ok [] :=
  c5_multiline_skip demoBothCategorizer "acct" demoMultilineTxn "X1.2"
    rfl (by decide) rfl

/-! ## C9: the CSV debit and credit columns -/

/-- C9: `CsvTransaction::into_transaction` requires exactly one of debit
and credit: a debit row becomes a Debit transaction with the negated
amount, a credit row a Credit transaction with the amount, and both or
neither set is an error. -/
theorem c9_csv_exactly_one (c : CsvTransaction) :
    (∀ d, c.debit = some d → c.credit = none →
      c.intoTransaction =
        .ok ⟨.debit, c.postedDate, -d, none, some c.category, c.description, none⟩) ∧
    (∀ cr, c.debit = none → c.credit = some cr →
      c.intoTransaction =
        .ok ⟨.credit, c.postedDate, cr, none, some c.category, c.description, none⟩) ∧
    (∀ d cr, c.debit = some d → c.credit = some cr →
      c.intoTransaction =
        .error "Cannot convert CsvTransaction with both debit and credit values") ∧
    (c.debit = none → c.credit = none →
      c.intoTransaction =
        .error "Cannot convert CsvTransaction without a debit or credit value") := by
  refine ⟨?_, ?_, ?_, ?_⟩
  · intro d hd hc
    unfold CsvTransaction.intoTransaction
    rw [hd, hc]
  · intro cr hd hc
    unfold CsvTransaction.intoTransaction
    rw [hd, hc]
  · intro d cr hd hc
    unfold CsvTransaction.intoTransaction
    rw [hd, hc]
  · intro hd hc
    unfold CsvTransaction.intoTransaction
    rw [hd, hc]

/-- Witness for C9 at a concrete debit only row. -/
theorem c9_csv_exactly_one_witness :
    CsvTransaction.intoTransaction demoCsvDebit =
      .ok ⟨.debit, 19738, -5, none, some "Dining", "Coffee Shop", none⟩ :=
  (c9_csv_exactly_one demoCsvDebit).1 5 rfl rfl

/-! ## C10: parser provenance of `transaction_id` and `memo` -/

/-- C10: the OFX path always populates `transaction_id` from the required
FITID, while the CSV path always leaves `transaction_id` and `memo` empty,
so the multiline continuation skip can never fire for a CSV sourced
transaction. -/
theorem c10_transaction_id_provenance :
    (∀ st : StatementTransaction,
      (qfxLoadTransaction st).transactionId = some st.transactionId) ∧
    (∀ (c : CsvTransaction) (t : Transaction), c.intoTransaction = .ok t →
      t.transactionId = none ∧ t.memo = none ∧
      shouldSkipMultiline t = false) := by
  constructor
  · intro st
    rfl
  · intro c t h
    unfold CsvTransaction.intoTransaction at h
    cases hd : c.debit with
    | some d =>
      cases hc : c.credit with
      | some cr => rw [hd, hc] at h; cases h
      | none =>
        rw [hd, hc] at h
        cases h
        exact ⟨rfl, rfl, rfl⟩
    | none =>
      cases hc : c.credit with
      | some cr =>
        rw [hd, hc] at h
        cases h
        exact ⟨rfl, rfl, rfl⟩
      | none => rw [hd, hc] at h; cases h

/-- Witness for C10 on the concrete CSV row. -/
theorem c10_transaction_id_provenance_witness :
    Transaction.transactionId
        ⟨.debit, 19738, -5, none, some "Dining", "Coffee Shop", none⟩ = none ∧
    Transaction.memo
        ⟨.debit, 19738, -5, none, some "Dining", "Coffee Shop", none⟩ = none ∧
    shouldSkipMultiline
        ⟨.debit, 19738, -5, none, some "Dining", "Coffee Shop", none⟩ = false :=
  c10_transaction_id_provenance.2 demoCsvDebit _ rfl

/-! ## C2: the date fill loop never inserts -/

/-- C2 evaluation: the post phase loop at `loader/mod.rs` lines 262-267
drops the `add_date` future without awaiting it, so the dates table is
unchanged for every run; in particular for a run whose min and max date are
day 0 the table stays empty, although an awaited `add_date` would have
inserted the row. -/
theorem c2_dates_never_inserted :
    (∀ (first last : Int) (table : List Int),
      fillDateRange first last table = table) ∧
    fillDateRange 0 0 [] = [] ∧ (0 : Int) ∉ fillDateRange 0 0 [] ∧
    addDate [] 0 = [0] := by
  refine ⟨?_, ?_, ?_, ?_⟩
  · intro first last table
    unfold fillDateRange
    exact foldl_drop_all _ _
  · rfl
  · simp [fillDateRange, dayRangeList, foldl_drop_all]
  · rfl

/-! ## C4: ambiguous prefix plus source type match -/

/-- C4: when the account's prefix trie holds a key that is a prefix of the
name and the account's source type map holds an entry for the source type,
`categorize` fails with `MatchedTypeAndPrefix`; being an error, neither a
categorized result nor an uncategorized record is produced. -/
theorem c4_matched_type_and_prefix (c : Categorizer) (acct nm : String)
    (t : TransactionType) (memo : Option String)
    (ps : List (String × TransactionDecoder)) (k : String)
    (dk d2 : TransactionDecoder)
    (hps : lookupA c.prefixMap acct = some ps)
    (hmem : (k, dk) ∈ ps)
    (hpre : strIsPrefixOf k nm = true)
    (ht : typeLookup c acct t = some d2) :
    ∃ p d, prefixLookup c acct nm = some (p, d) ∧
      c.categorize acct nm t memo =
        .error (.matchedTypeAndPrefix acct p t nm) := by
  have hs : (longestPfxOf ps nm).isSome :=
    longestPfxOf_isSome_of_mem hmem hpre
  obtain ⟨pd, hp⟩ := Option.isSome_iff_exists.mp hs
  obtain ⟨p, d⟩ := pd
  have hpl : prefixLookup c acct nm = some (p, d) := by
    unfold prefixLookup
    rw [hps]
    simpa using hp
  refine ⟨p, d, hpl, ?_⟩
  unfold Categorizer.categorize
  rw [hpl, ht]

/-- Witness for C4: the S3 style configuration with both a prefix and a
source type entry for the same account. -/
theorem c4_matched_type_and_prefix_witness :
    ∃ p d, prefixLookup demoBothCategorizer "acct" "POS PURCHASE COFFEE" = some (p, d) ∧
      Categorizer.categorize demoBothCategorizer "acct" "POS PURCHASE COFFEE" .pos none =
        .error (.matchedTypeAndPrefix "acct" p .pos "POS PURCHASE COFFEE") :=
  c4_matched_type_and_prefix demoBothCategorizer "acct" "POS PURCHASE COFFEE"
    .pos none [("POS PURCHASE ", demoDecoder)] "POS PURCHASE " demoDecoder
    demoDecoder rfl (by decide) (by decide) (by decide)

/-! ## C8: NameSuffix error paths -/

/-- C8: a decoder selected through the source type map with
`name_source = NameSuffix` makes `categorize` fail with
`NameSuffixInSourceType`; and when a matched prefix is passed to the
display name computation but is not actually a prefix of the name, the
result is `PrefixNotContained`. -/
theorem c8_name_suffix_errors :
    (∀ (c : Categorizer) (acct nm : String) (t : TransactionType)
       (memo : Option String) (d : TransactionDecoder),
       prefixLookup c acct nm = none →
       typeLookup c acct t = some d →
       d.nameSource = .nameSuffix →
       c.categorize acct nm t memo = .error .nameSuffixInSourceType) ∧
    (∀ (p nm : String) (memo : Option String),
       strIsPrefixOf p nm = false →
       displayNameOf .nameSuffix (some p) nm memo = .error .prefixNotContained) := by
  constructor
  · intro c acct nm t memo d hpl htl hns
    unfold Categorizer.categorize
    rw [hpl, htl]
    dsimp only
    rw [hns]
    rfl
  · intro p nm memo h
    simp [displayNameOf, dropPre, h]

/-- Witness for C8 on concrete inputs for both conjuncts. -/
theorem c8_name_suffix_errors_witness :
    Categorizer.categorize demoSuffixCategorizer "acct" "SOME NAME" .pos none =
      .error .nameSuffixInSourceType ∧
    displayNameOf .nameSuffix (some "SEND E-TFR ") "SOME NAME" none =
      .error .prefixNotContained :=
  ⟨c8_name_suffix_errors.1 demoSuffixCategorizer "acct" "SOME NAME" .pos none
      demoSuffixDecoder rfl (by decide) rfl,
   c8_name_suffix_errors.2 "SEND E-TFR " "SOME NAME" none (by decide)⟩

/-! ## C1: which dialect elides close tags -/

/-- C1 counterexample: on the buffer with an open tag, a value, and a
matching explicit close tag, the SGML dialect (elision flag
`qfxReaderHideFieldClose false`) emits the CloseTag unsuppressed, while
the XML dialect (`qfxReaderHideFieldClose true`) suppresses it - the
reverse of the claimed behaviour in both dialects. -/
theorem c1_elision_counterexample :
    lexTokens asciiDecode (qfxReaderHideFieldClose false) elisionExampleBytes =
      .ok [.openKey (strBytes "A"), .value "v", .closeKey (strBytes "A")] ∧
    lexTokens asciiDecode (qfxReaderHideFieldClose true) elisionExampleBytes =
      .ok [.openKey (strBytes "A"), .value "v"] := by
  constructor <;> decide

/-- C1 amended: `QfxReader::load` passes `is_xml` as the elision flag, so
close tag suppression happens exactly in the XML dialect: with the flag
off (SGML) the elision test never fires, with it on (XML) a close tag
matching the remembered open tag right after a value is hidden; the two
concrete runs show the resulting token streams. -/
theorem c1_elision_amended :
    (∀ (lastWasValue : Bool) (lastOpenBytes : Option (List Nat))
       (closeBytes : List Nat),
       hideCloseDecision (qfxReaderHideFieldClose false) lastWasValue
         lastOpenBytes closeBytes = false) ∧
    (∀ nameBytes : List Nat,
       hideCloseDecision (qfxReaderHideFieldClose true) true
         (some nameBytes) nameBytes = true) ∧
    lexTokens asciiDecode (qfxReaderHideFieldClose false) elisionExampleBytes =
      .ok [.openKey (strBytes "A"), .value "v", .closeKey (strBytes "A")] ∧
    lexTokens asciiDecode (qfxReaderHideFieldClose true) elisionExampleBytes =
      .ok [.openKey (strBytes "A"), .value "v"] := by
  refine ⟨?_, ?_, ?_, ?_⟩
  · intro lastWasValue lastOpenBytes closeBytes
    simp [hideCloseDecision, qfxReaderHideFieldClose]
  · intro nameBytes
    simp [hideCloseDecision, qfxReaderHideFieldClose]
  · decide
  · decide

/-! ## C3: required children at container close -/

/-- C3 counterexample: the document whose STMTRS container closes with
none of its required children (CURDEF, an account-from, BANKTRANLIST,
LEDGERBAL) present is accepted without any error: the parse returns an
empty stream instead of an error naming a missing field. -/
theorem c3_missing_field_counterexample :
    nextStatementTransaction noneValueFns emptyStmtrsToks = .ok none := by
  decide

/-- C3 amended: missing required field errors are raised at close for the
containers that check them - STMTTRN (here: a close without TRNTYPE) and
the checked structs such as STATUS (a close without CODE) - but the
STMTRS/CCSTMTRS container close performs no required children check at
all: the concrete document closing STMTRS empty parses successfully. -/
theorem c3_missing_field_amended :
    (∀ f : TxnFields, f.transactionType = none →
       finishTransaction f = .error "Missing key TRNTYPE") ∧
    (∀ (vp : ValueFns) (fuel : Nat) (rest : List PToken),
       checkStatusLoop vp (fuel + 1) false false false
         (.closeKey "STATUS" :: rest) = .error "Missing field CODE") ∧
    nextStatementTransaction noneValueFns emptyStmtrsToks = .ok none := by
  refine ⟨?_, ?_, ?_⟩
  · intro f h
    unfold finishTransaction
    rw [h]
  · intro vp fuel rest
    rfl
  · decide

/-- Witness for the amended C3 at a concrete field record missing
TRNTYPE. -/
theorem c3_missing_field_amended_witness :
    finishTransaction emptyTxnFields = .error "Missing key TRNTYPE" :=
  c3_missing_field_amended.1 emptyTxnFields rfl

/-! ## C6: ignored rules and the used categories set -/

/-- Every pattern category reachable in the buckets produced by
`bucketRules` is either already reachable in the starting accumulator or
stems from one of the rules, carrying that rule's category and ignore
flag. -/
theorem bucketRules_mem :
    ∀ (rules : List TransactionRuleConfig)
      (acc out : List (UserTransactionType × List (String × PatternCategory))),
    bucketRules rules acc = .ok out →
    ∀ (t : UserTransactionType) (bucket : List (String × PatternCategory))
      (p : String) (pc : PatternCategory),
    lookupA out t = some bucket → (p, pc) ∈ bucket →
    (∃ bucket0 p0, lookupA acc t = some bucket0 ∧ (p0, pc) ∈ bucket0) ∨
    ∃ r, r ∈ rules ∧ r.category = pc.category ∧ r.ignore = pc.ignore
  | [], acc, out, h => by
    unfold bucketRules at h
    cases h
    intro t bucket p pc hl hm
    exact .inl ⟨bucket, p, hl, hm⟩
  | r :: rest, acc, out, h => by
    unfold bucketRules at h
    cases haddr : addRulePatterns r.category r.ignore r.patterns
        ((lookupA acc r.transactionType).getD []) with
    | error e => rw [haddr] at h; cases h
    | ok bucket2 =>
      rw [haddr] at h
      intro t bucket p pc hl hm
      rcases bucketRules_mem rest _ out h t bucket p pc hl hm with
        ⟨bucket0, p0, hl0, hm0⟩ | ⟨r2, hr2, hc2, hi2⟩
      · by_cases ht : t = r.transactionType
        · subst ht
          rw [lookupA_setA_eq] at hl0
          have hb := Option.some.inj hl0
          subst hb
          rcases addRulePatterns_mem r.patterns _ _ haddr p0 pc hm0 with
            hold | hnew
          · cases hacc : lookupA acc r.transactionType with
            | some b =>
              rw [hacc] at hold
              exact .inl ⟨b, p0, rfl, hold⟩
            | none => rw [hacc] at hold; cases hold
          · subst hnew
            exact .inr ⟨r, List.mem_cons_self _ _, rfl, rfl⟩
        · rw [lookupA_setA_ne _ _ ht] at hl0
          exact .inl ⟨bucket0, p0, hl0, hm0⟩
      · exact .inr ⟨r2, List.mem_cons_of_mem _ hr2, hc2, hi2⟩

/-- Every pair in the built used categories set is either carried over
from the starting set or comes from a non ignored pattern category of some
bucket. -/
theorem buildTypes_mem
    (buckets : List (UserTransactionType × List (String × PatternCategory))) :
    ∀ (tts : List TransactionTypeConfig)
      (pm : List (String × List (String × TransactionDecoder)))
      (stm : List (String × List (TransactionType × TransactionDecoder)))
      (used : List (String × Bool)) (c : Categorizer),
    buildTypes buckets tts pm stm used = .ok c →
    ∀ x, x ∈ c.categories →
    x ∈ used ∨ ∃ t bucket p pc, lookupA buckets t = some bucket ∧
      (p, pc) ∈ bucket ∧ pc.ignore = false ∧ x.1 = pc.category
  | [], pm, stm, used, c, h => by
    unfold buildTypes at h
    cases h
    exact fun x hx => .inl hx
  | tc :: rest, pm, stm, used, c, h => by
    unfold buildTypes at h
    have step :
        ∀ (pm2 : List (String × List (String × TransactionDecoder)))
          (stm2 : List (String × List (TransactionType × TransactionDecoder))),
        buildTypes buckets rest pm2 stm2
          (addUsedCategories tc.income
            ((lookupA buckets tc.transactionType).getD []) used) = .ok c →
        ∀ x, x ∈ c.categories →
        x ∈ used ∨ ∃ t bucket p pc, lookupA buckets t = some bucket ∧
          (p, pc) ∈ bucket ∧ pc.ignore = false ∧ x.1 = pc.category := by
      intro pm2 stm2 h2 x hx
      rcases buildTypes_mem buckets rest pm2 stm2 _ c h2 x hx with
        hused2 | hdone
      · rcases mem_addUsedCategories _ _ hused2 with
          hused | ⟨p0, pc, hmc, hig, hxe⟩
        · exact .inl hused
        · cases hb : lookupA buckets tc.transactionType with
          | some b =>
            rw [hb] at hmc
            exact .inr ⟨tc.transactionType, b, p0, pc, hb, hmc, hig,
              by rw [hxe]⟩
          | none => rw [hb] at hmc; cases hmc
      · exact .inr hdone
    cases hmode : tc.mode with
    | prefixMode =>
      rw [hmode] at h
      cases hp : tc.prefixStr with
      | none => rw [hp] at h; dsimp only at h; cases h
      | some p =>
        rw [hp] at h
        dsimp only at h
        cases hins : insertPrefixAccounts p
            ⟨tc.transactionType, tc.nameSource, tc.income,
             (lookupA buckets tc.transactionType).getD []⟩ tc.accounts pm with
        | error e => rw [hins] at h; cases h
        | ok pm2 =>
          rw [hins] at h
          exact step pm2 stm h
    | sourceTypeMode =>
      rw [hmode] at h
      cases hst : tc.sourceType with
      | none => rw [hst] at h; dsimp only at h; cases h
      | some st =>
        rw [hst] at h
        dsimp only at h
        cases hins : insertSourceTypeAccounts st
            ⟨tc.transactionType, tc.nameSource, tc.income,
             (lookupA buckets tc.transactionType).getD []⟩ tc.accounts stm with
        | error e => rw [hins] at h; cases h
        | ok stm2 =>
          rw [hins] at h
          exact step pm stm2 h

/-- C6: an ignored rule never contributes a pair to the built used
categories set - every member traces back to a rule with `ignore = false`
and the same category - while an ignored rule's display names still match:
a display name found in the decoder's pattern map with `ignore = true`
yields `Categorized` with the ignore flag set, not `MissingRule`. -/
theorem c6_ignored_rules :
    (∀ (tts : List TransactionTypeConfig) (rules : List TransactionRuleConfig)
       (c : Categorizer), Categorizer.build tts rules = .ok c →
       ∀ (cat : String) (inc : Bool), (cat, inc) ∈ c.categories →
       ∃ r, r ∈ rules ∧ r.ignore = false ∧ r.category = cat) ∧
    (∀ (c : Categorizer) (acct nm : String) (t : TransactionType)
       (memo : Option String) (d : TransactionDecoder) (pc : PatternCategory)
       (dn : String),
       prefixLookup c acct nm = none →
       typeLookup c acct t = some d →
       displayNameOf d.nameSource none nm memo = .ok dn →
       lookupA d.categories dn.trim = some pc →
       pc.ignore = true →
       c.categorize acct nm t memo =
         .ok (.categorized ⟨d.income, true, pc.category⟩)) := by
  constructor
  · intro tts rules c h cat inc hmem
    unfold Categorizer.build at h
    cases hbr : bucketRules rules [] with
    | error e => rw [hbr] at h; cases h
    | ok buckets =>
      rw [hbr] at h
      rcases buildTypes_mem buckets tts [] [] [] c h (cat, inc) hmem with
        hemp | ⟨t, bucket, p, pc, hl, hmb, hig, hcat⟩
      · cases hemp
      · rcases bucketRules_mem rules [] buckets hbr t bucket p pc hl hmb with
          ⟨bucket0, p0, hl0, _⟩ | ⟨r, hr, hc, hi⟩
        · cases hl0
        · exact ⟨r, hr, by rw [hi, hig], by rw [hc, ← hcat]⟩
  · intro c acct nm t memo d pc dn hpl htl hdn hlk hig
    unfold Categorizer.categorize
    rw [hpl, htl]
    dsimp only
    rw [hdn]
    dsimp only
    unfold finishCategorize
    rw [hlk]
    dsimp only
    rw [hig]

/-- Witness for C6: the demo configuration with one live and one ignored
rule builds successfully, the live category is in the set, and the claimed
rule exists. -/
theorem c6_ignored_rules_witness :
    ∃ r, r ∈ demoRules ∧ r.ignore = false ∧ r.category = "Food" :=
  c6_ignored_rules.1 demoTts demoRules demoBuilt (by decide) "Food" false
    (by decide)
